import Mathlib

/-!
Shallow embedding of the smart-stt core pipeline
(`src/utils/errors.ts`, `src/utils/retry.ts`, `src/utils/timeout.ts`,
`src/modes/shared/transcription.ts`, `src/modes/shared/text-processing.ts`,
`src/modes/edit/text-editor.ts`, `src/modes/dictation/handler.ts`,
`src/modes/edit/handler.ts`, and the `process-audio` / `process-edit`
IPC handlers of the Electron main process).

JavaScript values thrown as errors are modelled by the inductive `JSError`;
asynchronous operations whose outcome is decided by the outside world
(network calls, keystroke simulation) are parameters of type
`Except JSError _` or `TimedOutcome _`; the mutable module state
(system clipboard, `isProcessing`, `pendingEditText`) is threaded
explicitly, together with a trace of the observable side effects.
-/

/-- `ErrorCategory` enum from `src/utils/errors.ts`. -/
inductive ErrorCategory where
  | network
  | api_auth
  | api_rate_limit
  | api_validation
  | timeout
  | audio
  | clipboard
  | configuration
  | edit_mode
  | unknown
deriving DecidableEq, Repr

/-- The string value of each `ErrorCategory` enum member (they are string
enums in the source, e.g. `CLIPBOARD = 'clipboard'`). -/
def ErrorCategory.str : ErrorCategory → String
  | .network => "network"
  | .api_auth => "api_auth"
  | .api_rate_limit => "api_rate_limit"
  | .api_validation => "api_validation"
  | .timeout => "timeout"
  | .audio => "audio"
  | .clipboard => "clipboard"
  | .configuration => "configuration"
  | .edit_mode => "edit_mode"
  | .unknown => "unknown"

/-- A JavaScript value that can be thrown/rejected in the parts of the
program the claims are about:
* `smartSTT`: the `SmartSTTError` class (category, technical message,
  user message, `canRetry`, optional `originalError`);
* `cancelled`: the `CancelledError` class;
* `apiError`: the openai `APIError` (optional numeric `status`, optional
  `code`, `message`, and the optional `response.data.error.message` chain
  read by the IPC fallback branch);
* `plain`: a plain `new Error(message)`;
* `nonError`: a thrown value that is not an `Error` instance (its
  `String(...)` rendering is stored). -/
inductive JSError where
  | smartSTT (category : ErrorCategory) (message : String) (userMessage : String)
      (canRetry : Bool) (originalError : Option JSError)
  | cancelled (message : String)
  | apiError (status : Option Nat) (code : Option String) (message : String)
      (respMessage : Option String)
  | plain (message : String)
  | nonError (repr : String)

/-- `error instanceof Error` (every constructor but `nonError` extends
`Error` in the source). -/
def JSError.isErrorInstance : JSError → Bool
  | .nonError _ => false
  | _ => true

/-- `error instanceof APIError`. -/
def JSError.isAPIError : JSError → Bool
  | .apiError _ _ _ _ => true
  | _ => false

/-- The `.message` property (only meaningful for `Error` instances). -/
def JSError.msgOf : JSError → String
  | .smartSTT _ m _ _ _ => m
  | .cancelled m => m
  | .apiError _ _ m _ => m
  | .plain m => m
  | .nonError _ => ""

/-- The `.name` property of the error classes. -/
def JSError.nameOf : JSError → String
  | .smartSTT _ _ _ _ _ => "SmartSTTError"
  | .cancelled _ => "CancelledError"
  | .apiError _ _ _ _ => "APIError"
  | .plain _ => "Error"
  | .nonError _ => ""

/-- JavaScript `String(error)`: `name: message` for `Error` instances,
the stored rendering for non-`Error` values. -/
def JSError.jsString (e : JSError) : String :=
  match e with
  | .nonError r => r
  | _ => if e.msgOf = "" then e.nameOf else e.nameOf ++ ": " ++ e.msgOf

/-- The `category` of a `SmartSTTError`, `none` for every other value. -/
def JSError.categoryOf : JSError → Option ErrorCategory
  | .smartSTT c _ _ _ _ => some c
  | _ => none

/-- The `canRetry` of a `SmartSTTError`, `none` for every other value. -/
def JSError.canRetryOf : JSError → Option Bool
  | .smartSTT _ _ _ r _ => some r
  | _ => none

/-- JS truthiness fallback `a || b` on strings (empty string is falsy). -/
def orD (a b : String) : String := if a = "" then b else a

/-- `isCancelledError` from `src/utils/errors.ts`:
`error instanceof CancelledError`. -/
def isCancelledError : JSError → Bool
  | .cancelled _ => true
  | _ => false

/-- `createNetworkError` from `src/utils/errors.ts`. -/
def createNetworkError (error : JSError) : JSError :=
  let originalError := if error.isErrorInstance then some error else none
  .smartSTT .network
    ("Network error: " ++ orD ((originalError.map JSError.msgOf).getD "") error.jsString)
    "Erro de conexão. Verifique sua internet e tente novamente."
    true originalError

/-- `createAuthError` from `src/utils/errors.ts`. -/
def createAuthError (error : JSError) : JSError :=
  let originalError := if error.isErrorInstance then some error else none
  .smartSTT .api_auth
    ("API authentication error: " ++ orD ((originalError.map JSError.msgOf).getD "") error.jsString)
    "Chave da API inválida. Configure a chave correta nas configurações."
    false originalError

/-- `createRateLimitError` from `src/utils/errors.ts`. -/
def createRateLimitError (error : JSError) : JSError :=
  let originalError := if error.isErrorInstance then some error else none
  .smartSTT .api_rate_limit
    ("API rate limit exceeded: " ++ orD ((originalError.map JSError.msgOf).getD "") error.jsString)
    "Limite de uso da API atingido. Aguarde alguns minutos e tente novamente."
    true originalError

/-- `createTimeoutError(operation, timeoutMs)` from `src/utils/errors.ts`
(the source's technical message quotes the operation name with
apostrophes, written `\x27` here). -/
def createTimeoutError (operation : String) (timeoutMs : Nat) : JSError :=
  .smartSTT .timeout
    ("Operation \x27" ++ operation ++ "\x27 timed out after " ++ toString timeoutMs ++ "ms")
    "A operação demorou muito. Tente novamente."
    true none

/-- `createPasteFailureError(error?)`; both pipelines call it with no
argument (`String(error || 'unknown')` renders as `unknown`). -/
def createPasteFailureError (error : Option JSError) : JSError :=
  let originalError := error.bind (fun e => if e.isErrorInstance then some e else none)
  .smartSTT .clipboard
    ("Paste simulation failed: " ++
      orD ((originalError.map JSError.msgOf).getD "")
        ((error.map JSError.jsString).getD "unknown"))
    "Texto copiado. Cole manualmente com Ctrl+V."
    false originalError

/-- `createCopyFailureError(error?)`; the edit capture calls it with no
argument. -/
def createCopyFailureError (error : Option JSError) : JSError :=
  let originalError := error.bind (fun e => if e.isErrorInstance then some e else none)
  .smartSTT .clipboard
    ("Copy simulation failed: " ++
      orD ((originalError.map JSError.msgOf).getD "")
        ((error.map JSError.jsString).getD "unknown"))
    "Não foi possível copiar o texto selecionado."
    false originalError

/-- `createEmptyAudioError` from `src/utils/errors.ts`.  Defined by the
source but never called by `transcribeAudio`, which throws a plain
`Error` instead (see `transcribeAudio` below). -/
def createEmptyAudioError : JSError :=
  .smartSTT .audio "Audio buffer is empty" "Áudio vazio. Grave novamente." false none

/-- `createInvalidAudioError` from `src/utils/errors.ts`. -/
def createInvalidAudioError (reason : String) : JSError :=
  .smartSTT .audio ("Invalid audio: " ++ reason) "Formato de áudio inválido." false none

/-- `createMissingApiKeyError` from `src/utils/errors.ts`.  Defined by the
source but never called by the IPC handlers, which throw a plain `Error`
with the same user-facing text (see `processAudio` below). -/
def createMissingApiKeyError : JSError :=
  .smartSTT .configuration "OpenAI API key not configured"
    "Configure a chave da OpenAI nas configurações." false none

/-- `createEditNoTextError` from `src/utils/errors.ts`. -/
def createEditNoTextError : JSError :=
  .smartSTT .edit_mode "No text available for editing"
    "Selecione ou copie um texto antes de editar." false none

/-- `createEditEmptyInstructionError` from `src/utils/errors.ts`. -/
def createEditEmptyInstructionError : JSError :=
  .smartSTT .edit_mode "Empty edit instruction after transcription"
    "Instrução de edição vazia. Grave novamente." false none

/-- `createEditEmptyResultError` from `src/utils/errors.ts`. -/
def createEditEmptyResultError : JSError :=
  .smartSTT .edit_mode "LLM returned empty text after editing"
    "A edição resultou em texto vazio." false none

/-- JS truthiness of the openai `APIError.status` field
(`apiError.status` is falsy when absent or `0`). -/
def statusTruthy : Option Nat → Bool
  | some s => s ≠ 0
  | none => false

/-- `categorizeAPIError` from `src/utils/errors.ts`, branch for branch:
non-`APIError` input → UNKNOWN; 401/403 → auth; 429 → rate limit;
truthy 4xx → API_VALIDATION; truthy ≥ 500 → NETWORK; falsy status →
NETWORK; remaining truthy status → UNKNOWN fallback. -/
def categorizeAPIError (error : JSError) : JSError :=
  match error with
  | .apiError status code message _resp =>
    if status = some 401 ∨ status = some 403 then
      createAuthError error
    else if status = some 429 then
      createRateLimitError error
    else if statusTruthy status ∧ 400 ≤ status.getD 0 ∧ status.getD 0 < 500 then
      .smartSTT .api_validation ("API validation error: " ++ message)
        "Dados inválidos enviados para a API." false (some error)
    else if statusTruthy status ∧ 500 ≤ status.getD 0 then
      .smartSTT .network ("API server error: " ++ message)
        "Erro no servidor da API. Tente novamente." true (some error)
    else if ¬ statusTruthy status then
      createNetworkError error
    else
      .smartSTT .unknown
        ("API error: " ++ toString (status.getD 0) ++ " " ++ code.getD "undefined"
          ++ " " ++ message)
        "Erro ao comunicar com a API. Tente novamente." true (some error)
  | _ =>
    .smartSTT .unknown
      ("Unexpected error: " ++ if error.isErrorInstance then error.msgOf else error.jsString)
      "Erro desconhecido. Tente novamente."
      true (if error.isErrorInstance then some error else none)

/-- `isRetryableError` from `src/utils/errors.ts`. -/
def isRetryableError (error : JSError) : Bool :=
  match error with
  | .cancelled _ => false
  | .smartSTT _ _ _ canRetry _ => canRetry
  | .apiError _ _ _ _ =>
    match (categorizeAPIError error).canRetryOf with
    | some r => r
    | none => false
  | _ => true

/-- `calculateDelay` from `src/utils/retry.ts`:
`min(initialDelayMs * backoffMultiplier ^ (attempt - 1), maxDelayMs)`. -/
def calculateDelay (attempt initialDelayMs maxDelayMs backoffMultiplier : Nat) : Nat :=
  min (initialDelayMs * backoffMultiplier ^ (attempt - 1)) maxDelayMs

/-- `RetryConfig` from `src/utils/retry.ts`.  `isCancelled` is the optional
cancellation predicate; since it is consulted once per loop iteration we
model it as a function of the attempt number about to run.  `onRetry` is an
opaque callback; we record whether it was supplied and log its invocations
in the run trace. -/
structure RetryConfig where
  maxAttempts : Nat
  initialDelayMs : Nat
  maxDelayMs : Nat
  backoffMultiplier : Nat
  shouldRetry : JSError → Bool
  onRetryPresent : Bool
  isCancelled : Option (Nat → Bool)

/-- `finalConfig.isCancelled?.()` before the given attempt. -/
def RetryConfig.cancelledAt (cfg : RetryConfig) (attempt : Nat) : Bool :=
  match cfg.isCancelled with
  | none => false
  | some f => f attempt

/-- Observable history of one `withRetry` run: which attempts invoked the
operation, the `(attempt, error, delayMs)` triples scheduled for retry
(also passed to `onRetry` when present, logged otherwise), and the backoff
sleeps actually performed. -/
structure RetryTrace where
  opCalls : List Nat
  retrySchedule : List (Nat × JSError × Nat)
  onRetryCalls : List (Nat × JSError × Nat)
  sleeps : List Nat

/-- The empty trace at the start of a run. -/
def RetryTrace.empty : RetryTrace := ⟨[], [], [], []⟩

/-- The retry loop of `withRetry` (`for attempt = 1..maxAttempts`), with
the remaining iteration count as the recursion fuel: `fuel` iterations
remain, the current one being `attempt` (so `attempt` is the last one
exactly when `fuel = 1`).  Mirrors the source statement for statement:
cancellation check, invoke, return on success; on failure break on the
last attempt, rethrow a non-retryable error, otherwise schedule the
backoff and continue.  `fuel = 0` is the degenerate `maxAttempts = 0`
case where the loop body never runs and `throw lastError` throws
`undefined`. -/
def withRetryGo {α : Type} (op : Nat → Except JSError α) (cfg : RetryConfig) :
    Nat → Nat → RetryTrace → Except JSError α × RetryTrace
  | _attempt, 0, tr => (.error (.nonError "undefined"), tr)
  | attempt, fuel + 1, tr =>
    if cfg.cancelledAt attempt then
      (.error (.plain "Operation cancelled by user"), tr)
    else
      let tr1 : RetryTrace := { tr with opCalls := tr.opCalls ++ [attempt] }
      match op attempt with
      | .ok v => (.ok v, tr1)
      | .error e =>
        if fuel = 0 then
          (.error e, tr1)
        else if cfg.shouldRetry e then
          let d := calculateDelay attempt cfg.initialDelayMs cfg.maxDelayMs cfg.backoffMultiplier
          let tr2 : RetryTrace :=
            { tr1 with
              retrySchedule := tr1.retrySchedule ++ [(attempt, e, d)]
              onRetryCalls :=
                if cfg.onRetryPresent then tr1.onRetryCalls ++ [(attempt, e, d)]
                else tr1.onRetryCalls
              sleeps := tr1.sleeps ++ [d] }
          withRetryGo op cfg (attempt + 1) fuel tr2
        else
          (.error e, tr1)

/-- `withRetry(operation, config)` from `src/utils/retry.ts`.  The
operation's outcome at each attempt is given by `op`; the function returns
the settled result together with the run trace. -/
def withRetry {α : Type} (op : Nat → Except JSError α) (cfg : RetryConfig) :
    Except JSError α × RetryTrace :=
  withRetryGo op cfg 1 cfg.maxAttempts RetryTrace.empty

/-- `createAPIRetryConfig()` from `src/utils/retry.ts` with no overrides
(the configuration used by `cleanText` and `applyInstructionToText`):
3 attempts, 1s initial delay, 10s cap, multiplier 2,
`shouldRetry = isRetryableError`, no `onRetry`, no `isCancelled`. -/
def createAPIRetryConfig : RetryConfig :=
  { maxAttempts := 3
    initialDelayMs := 1000
    maxDelayMs := 10000
    backoffMultiplier := 2
    shouldRetry := isRetryableError
    onRetryPresent := false
    isCancelled := none }

/-- Outcome of an asynchronous operation raced against a deadline:
either it settles (with a value or a rejection) after `atMs`
milliseconds, or it never settles within any relevant horizon. -/
inductive TimedOutcome (α : Type) where
  | completes (result : Except JSError α) (atMs : Nat)
  | pending

/-- `withTimeout(operation, timeoutMs, operationName)` from
`src/utils/timeout.ts`: the operation's settlement wins the race iff it
happens strictly before the deadline fires; otherwise the promise rejects
with the TIMEOUT `SmartSTTError` naming the operation and duration.
Synchronous throws and rejections before the deadline propagate
unchanged. -/
def withTimeout {α : Type} (outcome : TimedOutcome α) (timeoutMs : Nat)
    (operationName : String) : Except JSError α :=
  match outcome with
  | .completes r atMs =>
    if atMs < timeoutMs then r else .error (createTimeoutError operationName timeoutMs)
  | .pending => .error (createTimeoutError operationName timeoutMs)

/-- Observable side effects of a pipeline run, in execution order:
the transcription network request, the text-cleaning service invocation,
the text-editing service invocation, a clipboard write, a clipboard
clear, a simulated-copy keystroke, a simulated-paste keystroke. -/
inductive Effect where
  | transcribeNetCall
  | cleanCall
  | editCall
  | clipWrite (s : String)
  | clipClear
  | copySim
  | pasteAttempt
deriving DecidableEq, Repr

/-- State threaded through a pipeline run: the system clipboard content,
the effect trace, and the number of `shouldCancel()` calls made so far
(the index handed to the modelled cancellation callback). -/
structure PipeState where
  clipboard : String
  effects : List Effect
  cancelCalls : Nat
deriving Repr

/-- One `shouldCancel?.()` checkpoint: absent callback reads as `false`
(that is exactly how the IPC handlers run the pipelines — they pass no
callback); a present callback is consulted at the next call index. -/
def checkCancel (shouldCancel : Option (Nat → Bool)) (st : PipeState) : Bool × PipeState :=
  match shouldCancel with
  | none => (false, st)
  | some f => (f st.cancelCalls, { st with cancelCalls := st.cancelCalls + 1 })

/-- `transcribeAudio(buffer, apiKey, language)` from
`src/modes/shared/transcription.ts`.  Only the byte length of the buffer
is branch-relevant (`buffer.length === 0`); the network response to the
Whisper request is the external parameter `net`.  An empty buffer throws
the plain `new Error('Áudio vazio')` before the request is issued; a
non-empty buffer issues exactly one network request and returns or
rethrows its outcome unchanged (the catch block only logs). -/
def transcribeAudio (bufferLen : Nat) (net : Except JSError String) (st : PipeState) :
    Except JSError String × PipeState :=
  if bufferLen = 0 then
    (.error (.plain "Áudio vazio"), st)
  else
    (net, { st with effects := st.effects ++ [Effect.transcribeNetCall] })

/-- `response.choices[0]?.message?.content?.trim() ?? ''`: the optional
content chain of a chat-completion response, trimmed, defaulting to the
empty string. -/
def contentString (content : Option String) : String :=
  (content.map String.trim).getD ""

/-- `cleanText(text, apiKey, language)` from
`src/modes/shared/text-processing.ts`: the chat-completion call (response
modelled per retry attempt by `net`) wrapped in
`withTimeout(·, 15000, 'gpt-clean-text')` then
`withRetry(·, createAPIRetryConfig())`; a terminal failure is passed
through `categorizeAPIError` and rethrown. -/
def cleanTextRun (net : Nat → TimedOutcome (Option String)) :
    Except JSError String × RetryTrace :=
  match withRetry (fun attempt => withTimeout (net attempt) 15000 "gpt-clean-text")
      createAPIRetryConfig with
  | (.ok content, tr) => (.ok (contentString content), tr)
  | (.error e, tr) => (.error (categorizeAPIError e), tr)

/-- `applyInstructionToText(instruction, baseText, apiKey, language)` from
`src/modes/edit/text-editor.ts`: same wrapping as `cleanTextRun`, with a
20s timeout labelled `gpt-edit-text`. -/
def applyInstructionToTextRun (net : Nat → TimedOutcome (Option String)) :
    Except JSError String × RetryTrace :=
  match withRetry (fun attempt => withTimeout (net attempt) 20000 "gpt-edit-text")
      createAPIRetryConfig with
  | (.ok content, tr) => (.ok (contentString content), tr)
  | (.error e, tr) => (.error (categorizeAPIError e), tr)

/-- External inputs of one dictation-pipeline run: the audio byte length,
the Whisper network outcome, the cleaning-service outcome per retry
attempt, and the timed outcome of the simulated paste. -/
structure DictEnv where
  bufferLen : Nat
  transcribeNet : Except JSError String
  cleanNet : Nat → TimedOutcome (Option String)
  pasteOutcome : TimedOutcome Unit

/-- `handleDictationAudio(buffer, clipboardOps, apiKey, language,
shouldCancel?)` from `src/modes/dictation/handler.ts`:
cancellation checkpoint → transcribe → checkpoint → clean → checkpoint →
`clipboard.writeText(cleanedText)` → checkpoint → simulated paste under
`withTimeout(·, 2000, 'clipboard-paste')`, any paste failure being
replaced by `createPasteFailureError()`. -/
def handleDictationAudio (env : DictEnv) (shouldCancel : Option (Nat → Bool))
    (st : PipeState) : Except JSError String × PipeState :=
  let (c0, st) := checkCancel shouldCancel st
  if c0 then (.error (.cancelled "Operation cancelled by user"), st) else
  match transcribeAudio env.bufferLen env.transcribeNet st with
  | (.error e, st) => (.error e, st)
  | (.ok _rawText, st) =>
    let (c1, st) := checkCancel shouldCancel st
    if c1 then (.error (.cancelled "Operation cancelled by user"), st) else
    let st := { st with effects := st.effects ++ [Effect.cleanCall] }
    match cleanTextRun env.cleanNet with
    | (.error e, _) => (.error e, st)
    | (.ok cleanedText, _) =>
      let (c2, st) := checkCancel shouldCancel st
      if c2 then (.error (.cancelled "Operation cancelled by user"), st) else
      let st := { st with clipboard := cleanedText
                          effects := st.effects ++ [Effect.clipWrite cleanedText] }
      let (c3, st) := checkCancel shouldCancel st
      if c3 then (.error (.cancelled "Operation cancelled by user"), st) else
      let st := { st with effects := st.effects ++ [Effect.pasteAttempt] }
      match withTimeout env.pasteOutcome 2000 "clipboard-paste" with
      | .error _ => (.error (createPasteFailureError none), st)
      | .ok _ => (.ok cleanedText, st)

/-- Result of the edit-mode base-text capture:
`{ text, source: 'selection' | 'empty' }`. -/
structure CaptureResult where
  text : String
  sourceSelection : Bool
deriving DecidableEq, Repr

/-- `captureSelectedOrClipboardText(clipboardOps)` from
`src/modes/edit/handler.ts`: save the clipboard, clear it, simulate copy
under `withTimeout(·, 2000, 'clipboard-copy')`; on success wait 180ms and
read the (externally repopulated) clipboard trimmed, on failure throw
`createCopyFailureError()` — and in both cases restore the saved
clipboard in the `finally` block before returning/propagating.
`copySelection` is the text the focused application puts in the clipboard
when the simulated copy succeeds. -/
def captureSelectedOrClipboardText (copyOutcome : TimedOutcome Unit)
    (copySelection : String) (st : PipeState) :
    Except JSError CaptureResult × PipeState :=
  let previous := st.clipboard
  let st := { st with clipboard := "", effects := st.effects ++ [Effect.clipClear] }
  let st := { st with effects := st.effects ++ [Effect.copySim] }
  match withTimeout copyOutcome 2000 "clipboard-copy" with
  | .ok _ =>
    let st := { st with clipboard := copySelection }
    let selection := st.clipboard.trim
    let st := { st with clipboard := previous
                        effects := st.effects ++ [Effect.clipWrite previous] }
    (.ok { text := selection, sourceSelection := selection ≠ "" }, st)
  | .error _ =>
    let st := { st with clipboard := previous
                        effects := st.effects ++ [Effect.clipWrite previous] }
    (.error (createCopyFailureError none), st)

/-- External inputs of one edit-pipeline run. -/
structure EditEnv where
  bufferLen : Nat
  copyOutcome : TimedOutcome Unit
  copySelection : String
  transcribeNet : Except JSError String
  editNet : Nat → TimedOutcome (Option String)
  pasteOutcome : TimedOutcome Unit

/-- `handleEditAudio(buffer, clipboardOps, apiKey, language,
pendingEditText, shouldCancel?)` from `src/modes/edit/handler.ts`:
checkpoint → resolve base text (the falsy-checked `pendingEditText`, else
capture; capture errors propagate) → `createEditNoTextError` when none →
transcribe the instruction and trim it → checkpoint →
`createEditEmptyInstructionError` when empty → apply the instruction →
checkpoint → `createEditEmptyResultError` when empty →
`clipboard.writeText(editedText)` → checkpoint → simulated paste exactly
as in dictation. -/
def handleEditAudio (env : EditEnv) (pendingEditText : Option String)
    (shouldCancel : Option (Nat → Bool)) (st : PipeState) :
    Except JSError String × PipeState :=
  let (c0, st) := checkCancel shouldCancel st
  if c0 then (.error (.cancelled "Operation cancelled by user"), st) else
  let pending : Option String :=
    match pendingEditText with
    | some s => if s = "" then none else some s
    | none => none
  let resolved : Except JSError (Option String) × PipeState :=
    match pending with
    | some b => (.ok (some b), st)
    | none =>
      match captureSelectedOrClipboardText env.copyOutcome env.copySelection st with
      | (.ok r, st) => (.ok (if r.text.trim ≠ "" then some r.text else none), st)
      | (.error e, st) => (.error e, st)
  match resolved with
  | (.error e, st) => (.error e, st)
  | (.ok none, st) => (.error createEditNoTextError, st)
  | (.ok (some _baseText), st) =>
    match transcribeAudio env.bufferLen env.transcribeNet st with
    | (.error e, st) => (.error e, st)
    | (.ok rawInstruction, st) =>
      let instruction := rawInstruction.trim
      let (c1, st) := checkCancel shouldCancel st
      if c1 then (.error (.cancelled "Operation cancelled by user"), st) else
      if instruction = "" then (.error createEditEmptyInstructionError, st) else
      let st := { st with effects := st.effects ++ [Effect.editCall] }
      match applyInstructionToTextRun env.editNet with
      | (.error e, _) => (.error e, st)
      | (.ok editedText, _) =>
        let (c2, st) := checkCancel shouldCancel st
        if c2 then (.error (.cancelled "Operation cancelled by user"), st) else
        if editedText = "" then (.error createEditEmptyResultError, st) else
        let st := { st with clipboard := editedText
                            effects := st.effects ++ [Effect.clipWrite editedText] }
        let (c3, st) := checkCancel shouldCancel st
        if c3 then (.error (.cancelled "Operation cancelled by user"), st) else
        let st := { st with effects := st.effects ++ [Effect.pasteAttempt] }
        match withTimeout env.pasteOutcome 2000 "clipboard-paste" with
        | .error _ => (.error (createPasteFailureError none), st)
        | .ok _ => (.ok editedText, st)
  /- The unused `baseText` reflects that the base text only feeds the
  edit request, whose response is the external `editNet`. -/

/-- Structured result object returned over IPC
(`{ok, text?, warning?, error?, category?, canRetry?, cancelled?}`);
absent object fields are `none`. -/
structure IPCResult where
  ok : Bool
  text : Option String := none
  warning : Option String := none
  error : Option String := none
  category : Option String := none
  canRetry : Option Bool := none
  cancelled : Option Bool := none
deriving DecidableEq, Repr

/-- Module-level mutable state of the Electron main process that the IPC
handlers read and write, plus the accumulated effect trace. -/
structure MainState where
  clipboard : String
  effects : List Effect
  isProcessing : Bool
  pendingEditText : Option String
deriving Repr

/-- JS truthiness of the stored API key (`!apiKey`): absent or empty
string is falsy. -/
def keyTruthy : Option String → Bool
  | some k => k ≠ ""
  | none => false

/-- The shared `catch` block of the `process-audio` / `process-edit` IPC
handlers: a value with `category` and `userMessage` properties (a
`SmartSTTError`) maps to the partial-success shape when its category is
`'clipboard'` and to `{ok:false, error, category, canRetry}` otherwise;
every other value falls through to
`{ok:false, error: message-or-fallback}` with the special `APIError`
message assembly. -/
def handleCaughtError (e : JSError) : IPCResult :=
  match e with
  | .smartSTT category _ userMessage canRetry _ =>
    if category.str = "clipboard" then
      { ok := true, text := some "", warning := some userMessage
        category := some category.str }
    else
      { ok := false, error := some userMessage, category := some category.str
        canRetry := some canRetry }
  | .apiError status code message respMessage =>
    { ok := false
      error := some (orD (respMessage.getD "")
        ((if statusTruthy status then toString (status.getD 0) else "400")
          ++ " " ++ (if code.getD "" = "" then "" else code.getD "")
          ++ " " ++ message)) }
  | e =>
    { ok := false
      error := some (if e.isErrorInstance then e.msgOf else "Erro desconhecido") }

/-- The cancelled-result shape `{ok:false, error:'Cancelado',
cancelled:true}` returned by both IPC handlers when `cancelInProgress`
is observed. -/
def cancelledResult : IPCResult :=
  { ok := false, error := some "Cancelado", cancelled := some true }

/-- `ipcMain.handle('process-audio')` from the Electron main module:
set `isProcessing`; throw a plain `Error` when the stored API key is
falsy; return the cancelled shape if `cancelInProgress` is set before the
pipeline starts; run `handleDictationAudio` — passing NO `shouldCancel`
callback; return the cancelled shape if `cancelInProgress` is set after
the pipeline returns, else `{ok:true, text}`; any thrown error goes
through `handleCaughtError`.  `cancelBefore` / `cancelAfter` are the
values of the mutable `cancelInProgress` flag at its two read points. -/
def processAudio (apiKey : Option String) (cancelBefore cancelAfter : Bool)
    (env : DictEnv) (st0 : MainState) : IPCResult × MainState :=
  let st := { st0 with isProcessing := true }
  if ¬ keyTruthy apiKey then
    (handleCaughtError (.plain "Configure a chave da OpenAI nas configurações."),
      { st with isProcessing := false })
  else if cancelBefore then
    (cancelledResult, { st with isProcessing := false })
  else
    match handleDictationAudio env none ⟨st.clipboard, st.effects, 0⟩ with
    | (.ok text, pst) =>
      let st := { st with clipboard := pst.clipboard, effects := pst.effects }
      if cancelAfter then
        (cancelledResult, { st with isProcessing := false })
      else
        ({ ok := true, text := some text }, { st with isProcessing := false })
    | (.error e, pst) =>
      (handleCaughtError e,
        { st with clipboard := pst.clipboard, effects := pst.effects
                  isProcessing := false })

/-- `ipcMain.handle('process-edit')` from the Electron main module: same
shape as `processAudio`, additionally feeding the stored
`pendingEditText` to `handleEditAudio` (again with NO `shouldCancel`
callback) and clearing it on every exit path. -/
def processEdit (apiKey : Option String) (cancelBefore cancelAfter : Bool)
    (env : EditEnv) (st0 : MainState) : IPCResult × MainState :=
  let st := { st0 with isProcessing := true }
  if ¬ keyTruthy apiKey then
    (handleCaughtError (.plain "Configure a chave da OpenAI nas configurações."),
      { st with isProcessing := false, pendingEditText := none })
  else if cancelBefore then
    (cancelledResult, { st with isProcessing := false, pendingEditText := none })
  else
    match handleEditAudio env st.pendingEditText none ⟨st.clipboard, st.effects, 0⟩ with
    | (.ok text, pst) =>
      let st := { st with clipboard := pst.clipboard, effects := pst.effects }
      if cancelAfter then
        (cancelledResult, { st with isProcessing := false, pendingEditText := none })
      else
        ({ ok := true, text := some text },
          { st with isProcessing := false, pendingEditText := none })
    | (.error e, pst) =>
      (handleCaughtError e,
        { st with clipboard := pst.clipboard, effects := pst.effects
                  isProcessing := false, pendingEditText := none })

/-- The list `[start, start+1, ..., start+len-1]` of consecutive attempt
numbers. -/
def seqFrom (start : Nat) : Nat → List Nat
  | 0 => []
  | len + 1 => start :: seqFrom (start + 1) len

/-- Concrete fixture: an operation that rejects at every attempt with the
same plain error. -/
def opFail : Nat → Except JSError String := fun _ => .error (.plain "boom")

/-- Concrete fixture: the attempt-indexed error family of `opFail`. -/
def errBoom : Nat → JSError := fun _ => .plain "boom"

/-- Concrete fixture: three attempts, default backoff, everything
retryable, `onRetry` supplied, no cancellation predicate. -/
def cfgAlways : RetryConfig :=
  { maxAttempts := 3
    initialDelayMs := 1000
    maxDelayMs := 10000
    backoffMultiplier := 2
    shouldRetry := fun _ => true
    onRetryPresent := true
    isCancelled := none }

/-- Concrete fixture: `cfgAlways` with a cancellation predicate that is
already true at the first checkpoint. -/
def cfgCancelNow : RetryConfig :=
  { cfgAlways with isCancelled := some (fun _ => true) }

/-- Concrete fixture: `cfgAlways` with a cancellation predicate that
becomes true at the checkpoint before attempt 2. -/
def cfgCancelAt2 : RetryConfig :=
  { cfgAlways with isCancelled := some (fun i => 2 ≤ i) }

/-- Concrete fixture: `cfgAlways` rejecting every error as
non-retryable, without `onRetry`. -/
def cfgNonRetry : RetryConfig :=
  { cfgAlways with shouldRetry := fun _ => false, onRetryPresent := false }

/-- Concrete fixture: a dictation run whose transcription and cleaning
succeed and whose simulated paste never settles (2s timeout fires). -/
def dictEnvPasteFail : DictEnv :=
  { bufferLen := 4
    transcribeNet := .ok "Olá, é, tudo bem?"
    cleanNet := fun _ => .completes (.ok (some "Olá, tudo bem?")) 10
    pasteOutcome := .pending }

/-- Concrete fixture: a dictation run where every stage succeeds. -/
def dictEnvOk : DictEnv :=
  { dictEnvPasteFail with pasteOutcome := .completes (.ok ()) 10 }

/-- Concrete fixture: an edit run where every stage succeeds. -/
def editEnvOk : EditEnv :=
  { bufferLen := 4
    copyOutcome := .completes (.ok ()) 10
    copySelection := "base text"
    transcribeNet := .ok "make it shorter"
    editNet := fun _ => .completes (.ok (some "shorter")) 10
    pasteOutcome := .completes (.ok ()) 10 }

/-- Concrete fixture: initial main-process state with an unrelated
clipboard value. -/
def mainState0 : MainState :=
  { clipboard := "old clipboard", effects := [], isProcessing := false
    pendingEditText := none }

/-- Concrete fixture: initial pipeline state. -/
def pipeState0 : PipeState :=
  { clipboard := "old clipboard", effects := [], cancelCalls := 0 }

/-- Concrete fixture: a cancellation callback that flips to true from
checkpoint index `k` on (cancellation requested between the stage guarded
by checkpoint `k - 1` and the one guarded by checkpoint `k`). -/
def cancelFrom (k : Nat) : Nat → Bool := fun i => k ≤ i

/-- Concrete fixture: a cleaning/editing service that never answers. -/
def netPending : Nat → TimedOutcome (Option String) := fun _ => .pending

/-- Running the retry loop from `attempt` with `f + 1` iterations left,
when no checkpoint cancels, every reachable attempt fails, and every
failure before the last one is retryable, yields the last attempt's error
unchanged and invokes the operation at exactly the attempts
`attempt, ..., attempt + f`. -/
theorem withRetryGo_allFail {α : Type} (op : Nat → Except JSError α) (cfg : RetryConfig)
    (err : Nat → JSError) :
    ∀ (f attempt : Nat) (tr : RetryTrace),
      (∀ j, j ≤ f → cfg.cancelledAt (attempt + j) = false) →
      (∀ j, j ≤ f → op (attempt + j) = .error (err (attempt + j))) →
      (∀ j, j < f → cfg.shouldRetry (err (attempt + j)) = true) →
      (withRetryGo op cfg attempt (f + 1) tr).1 = .error (err (attempt + f)) ∧
      (withRetryGo op cfg attempt (f + 1) tr).2.opCalls =
        tr.opCalls ++ seqFrom attempt (f + 1) := by
  intro f
  induction f with
  | zero =>
    intro attempt tr hc hop _hr
    have hc0 := hc 0 (Nat.le_refl 0)
    have hop0 := hop 0 (Nat.le_refl 0)
    simp only [Nat.add_zero] at hc0 hop0
    simp [withRetryGo, hc0, hop0, seqFrom]
  | succ n ih =>
    intro attempt tr hc hop hr
    have hc0 := hc 0 (Nat.zero_le _)
    have hop0 := hop 0 (Nat.zero_le _)
    have hr0 := hr 0 (Nat.succ_pos n)
    simp only [Nat.add_zero] at hc0 hop0 hr0
    have step :
        withRetryGo op cfg attempt (n + 1 + 1) tr =
        withRetryGo op cfg (attempt + 1) (n + 1)
          { tr with
            opCalls := tr.opCalls ++ [attempt]
            retrySchedule := tr.retrySchedule ++
              [(attempt, err attempt,
                calculateDelay attempt cfg.initialDelayMs cfg.maxDelayMs cfg.backoffMultiplier)]
            onRetryCalls :=
              if cfg.onRetryPresent then
                tr.onRetryCalls ++
                  [(attempt, err attempt,
                    calculateDelay attempt cfg.initialDelayMs cfg.maxDelayMs
                      cfg.backoffMultiplier)]
              else tr.onRetryCalls
            sleeps := tr.sleeps ++
              [calculateDelay attempt cfg.initialDelayMs cfg.maxDelayMs
                cfg.backoffMultiplier] } := by
      simp [withRetryGo, hc0, hop0, hr0]
    rw [step]
    have ihres := ih (attempt + 1)
      { tr with
        opCalls := tr.opCalls ++ [attempt]
        retrySchedule := tr.retrySchedule ++
          [(attempt, err attempt,
            calculateDelay attempt cfg.initialDelayMs cfg.maxDelayMs cfg.backoffMultiplier)]
        onRetryCalls :=
          if cfg.onRetryPresent then
            tr.onRetryCalls ++
              [(attempt, err attempt,
                calculateDelay attempt cfg.initialDelayMs cfg.maxDelayMs cfg.backoffMultiplier)]
          else tr.onRetryCalls
        sleeps := tr.sleeps ++
          [calculateDelay attempt cfg.initialDelayMs cfg.maxDelayMs cfg.backoffMultiplier] }
      (fun j hj => by
        have := hc (j + 1) (Nat.succ_le_succ hj)
        simpa [Nat.add_assoc, Nat.add_comm 1 j] using this)
      (fun j hj => by
        have := hop (j + 1) (Nat.succ_le_succ hj)
        simpa [Nat.add_assoc, Nat.add_comm 1 j] using this)
      (fun j hj => by
        have := hr (j + 1) (Nat.succ_lt_succ hj)
        simpa [Nat.add_assoc, Nat.add_comm 1 j] using this)
    rcases ihres with ⟨h1, h2⟩
    constructor
    · rw [h1]
      congr 2
      omega
    · rw [h2]
      simp [seqFrom, List.append_assoc]

/-- Every `(attempt, error, delay)` triple the retry loop adds to its
schedule carries exactly the capped exponential-backoff delay
`calculateDelay attempt …`. -/
theorem withRetryGo_schedule_delay {α : Type} (op : Nat → Except JSError α)
    (cfg : RetryConfig) :
    ∀ (fuel attempt : Nat) (tr : RetryTrace),
      (∀ x ∈ tr.retrySchedule,
        x.2.2 = calculateDelay x.1 cfg.initialDelayMs cfg.maxDelayMs cfg.backoffMultiplier) →
      ∀ x ∈ (withRetryGo op cfg attempt fuel tr).2.retrySchedule,
        x.2.2 = calculateDelay x.1 cfg.initialDelayMs cfg.maxDelayMs cfg.backoffMultiplier := by
  intro fuel
  induction fuel with
  | zero =>
    intro attempt tr h
    simpa [withRetryGo] using h
  | succ n ih =>
    intro attempt tr h
    by_cases hc : cfg.cancelledAt attempt
    · simpa [withRetryGo, hc] using h
    · cases hop : op attempt with
      | ok v =>
        simpa [withRetryGo, hc, hop] using h
      | error e =>
        by_cases hn : n = 0
        · subst hn
          simpa [withRetryGo, hc, hop] using h
        · by_cases hr : cfg.shouldRetry e
          · have step :
                withRetryGo op cfg attempt (n + 1) tr =
                withRetryGo op cfg (attempt + 1) n
                  { tr with
                    opCalls := tr.opCalls ++ [attempt]
                    retrySchedule := tr.retrySchedule ++
                      [(attempt, e,
                        calculateDelay attempt cfg.initialDelayMs cfg.maxDelayMs
                          cfg.backoffMultiplier)]
                    onRetryCalls :=
                      if cfg.onRetryPresent then
                        tr.onRetryCalls ++
                          [(attempt, e,
                            calculateDelay attempt cfg.initialDelayMs cfg.maxDelayMs
                              cfg.backoffMultiplier)]
                      else tr.onRetryCalls
                    sleeps := tr.sleeps ++
                      [calculateDelay attempt cfg.initialDelayMs cfg.maxDelayMs
                        cfg.backoffMultiplier] } := by
              match n, hn with
              | m + 1, _ => simp [withRetryGo, hc, hop, hr]
            rw [step]
            apply ih
            intro x hx
            rcases List.mem_append.mp hx with hx' | hx'
            · exact h x hx'
            · rcases List.mem_singleton.mp hx' with rfl
              rfl
          · simpa [withRetryGo, hc, hop, hr] using h

/-- When `onRetry` is supplied, the loop hands it exactly the scheduled
`(attempt, error, delay)` triples: the invocation log stays equal to the
retry schedule. -/
theorem withRetryGo_onRetry_sync {α : Type} (op : Nat → Except JSError α)
    (cfg : RetryConfig) (hpresent : cfg.onRetryPresent = true) :
    ∀ (fuel attempt : Nat) (tr : RetryTrace),
      tr.onRetryCalls = tr.retrySchedule →
      (withRetryGo op cfg attempt fuel tr).2.onRetryCalls =
        (withRetryGo op cfg attempt fuel tr).2.retrySchedule := by
  intro fuel
  induction fuel with
  | zero =>
    intro attempt tr h
    simpa [withRetryGo] using h
  | succ n ih =>
    intro attempt tr h
    by_cases hc : cfg.cancelledAt attempt
    · simpa [withRetryGo, hc] using h
    · cases hop : op attempt with
      | ok v => simpa [withRetryGo, hc, hop] using h
      | error e =>
        by_cases hn : n = 0
        · subst hn
          simpa [withRetryGo, hc, hop] using h
        · by_cases hr : cfg.shouldRetry e
          · have step :
                withRetryGo op cfg attempt (n + 1) tr =
                withRetryGo op cfg (attempt + 1) n
                  { tr with
                    opCalls := tr.opCalls ++ [attempt]
                    retrySchedule := tr.retrySchedule ++
                      [(attempt, e,
                        calculateDelay attempt cfg.initialDelayMs cfg.maxDelayMs
                          cfg.backoffMultiplier)]
                    onRetryCalls :=
                      if cfg.onRetryPresent then
                        tr.onRetryCalls ++
                          [(attempt, e,
                            calculateDelay attempt cfg.initialDelayMs cfg.maxDelayMs
                              cfg.backoffMultiplier)]
                      else tr.onRetryCalls
                    sleeps := tr.sleeps ++
                      [calculateDelay attempt cfg.initialDelayMs cfg.maxDelayMs
                        cfg.backoffMultiplier] } := by
              match n, hn with
              | m + 1, _ => simp [withRetryGo, hc, hop, hr]
            rw [step]
            apply ih
            simp [hpresent, h]
          · simpa [withRetryGo, hc, hop, hr] using h

/-- Reaching checkpoint `attempt + m` (because the `m` attempts before it
failed retryably and no earlier checkpoint cancelled) with the
cancellation predicate now true makes the loop reject at once with the
plain `Error('Operation cancelled by user')`, without invoking the
operation again. -/
theorem withRetryGo_cancel {α : Type} (op : Nat → Except JSError α) (cfg : RetryConfig)
    (err : Nat → JSError) :
    ∀ (m f attempt : Nat) (tr : RetryTrace),
      m ≤ f →
      (∀ j, j < m → cfg.cancelledAt (attempt + j) = false) →
      (∀ j, j < m → op (attempt + j) = .error (err (attempt + j))) →
      (∀ j, j < m → cfg.shouldRetry (err (attempt + j)) = true) →
      cfg.cancelledAt (attempt + m) = true →
      (withRetryGo op cfg attempt (f + 1) tr).1 =
        .error (.plain "Operation cancelled by user") ∧
      (withRetryGo op cfg attempt (f + 1) tr).2.opCalls =
        tr.opCalls ++ seqFrom attempt m := by
  intro m
  induction m with
  | zero =>
    intro f attempt tr _hmf _hc _hop _hr hcm
    simp only [Nat.add_zero] at hcm
    simp [withRetryGo, hcm, seqFrom]
  | succ n ih =>
    intro f attempt tr hmf hc hop hr hcm
    have hc0 := hc 0 (Nat.succ_pos n)
    have hop0 := hop 0 (Nat.succ_pos n)
    have hr0 := hr 0 (Nat.succ_pos n)
    simp only [Nat.add_zero] at hc0 hop0 hr0
    obtain ⟨f', rfl⟩ : ∃ f', f = f' + 1 :=
      ⟨f - 1, by omega⟩
    have step :
        withRetryGo op cfg attempt (f' + 1 + 1) tr =
        withRetryGo op cfg (attempt + 1) (f' + 1)
          { tr with
            opCalls := tr.opCalls ++ [attempt]
            retrySchedule := tr.retrySchedule ++
              [(attempt, err attempt,
                calculateDelay attempt cfg.initialDelayMs cfg.maxDelayMs
                  cfg.backoffMultiplier)]
            onRetryCalls :=
              if cfg.onRetryPresent then
                tr.onRetryCalls ++
                  [(attempt, err attempt,
                    calculateDelay attempt cfg.initialDelayMs cfg.maxDelayMs
                      cfg.backoffMultiplier)]
              else tr.onRetryCalls
            sleeps := tr.sleeps ++
              [calculateDelay attempt cfg.initialDelayMs cfg.maxDelayMs
                cfg.backoffMultiplier] } := by
      simp [withRetryGo, hc0, hop0, hr0]
    rw [step]
    have ihres := ih f' (attempt + 1)
      { tr with
        opCalls := tr.opCalls ++ [attempt]
        retrySchedule := tr.retrySchedule ++
          [(attempt, err attempt,
            calculateDelay attempt cfg.initialDelayMs cfg.maxDelayMs cfg.backoffMultiplier)]
        onRetryCalls :=
          if cfg.onRetryPresent then
            tr.onRetryCalls ++
              [(attempt, err attempt,
                calculateDelay attempt cfg.initialDelayMs cfg.maxDelayMs cfg.backoffMultiplier)]
          else tr.onRetryCalls
        sleeps := tr.sleeps ++
          [calculateDelay attempt cfg.initialDelayMs cfg.maxDelayMs cfg.backoffMultiplier] }
      (by omega)
      (fun j hj => by
        have := hc (j + 1) (Nat.succ_lt_succ hj)
        simpa [Nat.add_assoc, Nat.add_comm 1 j] using this)
      (fun j hj => by
        have := hop (j + 1) (Nat.succ_lt_succ hj)
        simpa [Nat.add_assoc, Nat.add_comm 1 j] using this)
      (fun j hj => by
        have := hr (j + 1) (Nat.succ_lt_succ hj)
        simpa [Nat.add_assoc, Nat.add_comm 1 j] using this)
      (by
        have := hcm
        simpa [Nat.add_assoc, Nat.add_comm 1 n] using this)
    rcases ihres with ⟨h1, h2⟩
    refine ⟨h1, ?_⟩
    rw [h2]
    simp [seqFrom, List.append_assoc]

/-- A non-retryable failure at an attempt that is not the last one is
rethrown at once: one invocation, no retry scheduled. -/
theorem withRetryGo_nonRetryable {α : Type} (op : Nat → Except JSError α)
    (cfg : RetryConfig) (e : JSError) (f attempt : Nat) (tr : RetryTrace)
    (hc : cfg.cancelledAt attempt = false)
    (hop : op attempt = .error e)
    (hr : cfg.shouldRetry e = false) :
    withRetryGo op cfg attempt (f + 2) tr =
      (.error e, { tr with opCalls := tr.opCalls ++ [attempt] }) := by
  simp [withRetryGo, hc, hop, hr]

/-- `seqFrom start len` has exactly `len` elements. -/
theorem seqFrom_length (start len : Nat) : (seqFrom start len).length = len := by
  induction len generalizing start with
  | zero => rfl
  | succ n ih => simp [seqFrom, ih]

/-- C3: with `maxAttempts = N ≥ 1`, an operation failing at every attempt
with errors accepted by `shouldRetry` is invoked exactly `N` times (at
attempts `1..N`) and `withRetry` rejects with exactly the `N`-th
attempt's error, unwrapped; and an operation whose first failure is
rejected by `shouldRetry` before the last attempt is invoked exactly once
and that error is rethrown at once. -/
theorem withRetry_attempt_exhaustion :
    (∀ (op : Nat → Except JSError String) (cfg : RetryConfig) (err : Nat → JSError)
        (N : Nat),
      cfg.maxAttempts = N → 1 ≤ N →
      (∀ i, cfg.cancelledAt i = false) →
      (∀ i, 1 ≤ i → i ≤ N → op i = .error (err i)) →
      (∀ i, 1 ≤ i → i < N → cfg.shouldRetry (err i) = true) →
      (withRetry op cfg).1 = .error (err N) ∧
      (withRetry op cfg).2.opCalls = seqFrom 1 N ∧
      (withRetry op cfg).2.opCalls.length = N) ∧
    (∀ (op : Nat → Except JSError String) (cfg : RetryConfig) (e : JSError),
      2 ≤ cfg.maxAttempts →
      cfg.cancelledAt 1 = false →
      op 1 = .error e →
      cfg.shouldRetry e = false →
      (withRetry op cfg).1 = .error e ∧
      (withRetry op cfg).2.opCalls = [1]) := by
  constructor
  · intro op cfg err N hN hN1 hc hop hr
    obtain ⟨f, rfl⟩ : ∃ f, N = f + 1 := ⟨N - 1, by omega⟩
    have main := withRetryGo_allFail op cfg err f 1 RetryTrace.empty
      (fun j _ => hc (1 + j))
      (fun j hj => by
        have := hop (1 + j) (by omega) (by omega)
        simpa using this)
      (fun j hj => by
        have := hr (1 + j) (by omega) (by omega)
        simpa using this)
    rw [withRetry, hN]
    rcases main with ⟨h1, h2⟩
    refine ⟨?_, ?_, ?_⟩
    · rw [h1]; congr 2; omega
    · simpa [RetryTrace.empty] using h2
    · rw [h2]; simp [RetryTrace.empty, seqFrom_length]
  · intro op cfg e hN hc hop hr
    obtain ⟨f, hf⟩ : ∃ f, cfg.maxAttempts = f + 2 := ⟨cfg.maxAttempts - 2, by omega⟩
    have main := withRetryGo_nonRetryable op cfg e f 1 RetryTrace.empty hc hop
      (by simpa using hr)
    rw [withRetry, hf, main]
    exact ⟨rfl, rfl⟩

/-- Closed instance of `withRetry_attempt_exhaustion`: an always-failing
retryable operation under a 3-attempt configuration is invoked at
attempts `[1, 2, 3]` and the third failure is rethrown; a non-retryable
first failure stops after attempt `[1]`. -/
theorem withRetry_attempt_exhaustion_witness :
    ((withRetry opFail cfgAlways).1 = .error (.plain "boom") ∧
      (withRetry opFail cfgAlways).2.opCalls = seqFrom 1 3 ∧
      (withRetry opFail cfgAlways).2.opCalls.length = 3) ∧
    ((withRetry opFail cfgNonRetry).1 = .error (.plain "boom") ∧
      (withRetry opFail cfgNonRetry).2.opCalls = [1]) := by
  constructor
  · exact withRetry_attempt_exhaustion.1 opFail cfgAlways errBoom 3 rfl (by decide)
      (fun i => rfl) (fun i _ _ => rfl) (fun i _ _ => rfl)
  · exact withRetry_attempt_exhaustion.2 opFail cfgNonRetry (.plain "boom")
      (by decide) rfl rfl rfl

/-- C4: every `(attempt, error, delay)` triple the retry loop schedules
satisfies `delay = min(initialDelayMs * backoffMultiplier ^ (attempt - 1),
maxDelayMs)`, and when `onRetry` is supplied it is invoked with exactly
those scheduled triples. -/
theorem withRetry_backoff_delay (op : Nat → Except JSError String)
    (cfg : RetryConfig) :
    (∀ x ∈ (withRetry op cfg).2.retrySchedule,
      x.2.2 = min (cfg.initialDelayMs * cfg.backoffMultiplier ^ (x.1 - 1)) cfg.maxDelayMs) ∧
    (cfg.onRetryPresent = true →
      (withRetry op cfg).2.onRetryCalls = (withRetry op cfg).2.retrySchedule) := by
  constructor
  · intro x hx
    have := withRetryGo_schedule_delay op cfg cfg.maxAttempts 1 RetryTrace.empty
      (by intro y hy; simp [RetryTrace.empty] at hy) x hx
    simpa [calculateDelay] using this
  · intro hpresent
    exact withRetryGo_onRetry_sync op cfg hpresent cfg.maxAttempts 1 RetryTrace.empty rfl

/-- Closed instance of `withRetry_backoff_delay`: in the concrete
all-fail run the second scheduled retry carries delay
`min(1000 * 2^1, 10000) = 2000`, and the `onRetry` log equals the
schedule. -/
theorem withRetry_backoff_delay_witness :
    (((2 : Nat), JSError.plain "boom", (2000 : Nat)).2.2 =
      min (cfgAlways.initialDelayMs *
        cfgAlways.backoffMultiplier ^ (((2 : Nat), JSError.plain "boom", (2000 : Nat)).1 - 1))
        cfgAlways.maxDelayMs) ∧
    (withRetry opFail cfgAlways).2.onRetryCalls =
      (withRetry opFail cfgAlways).2.retrySchedule := by
  exact ⟨(withRetry_backoff_delay opFail cfgAlways).1 _
      (List.Mem.tail _ (List.Mem.head _)),
    (withRetry_backoff_delay opFail cfgAlways).2 rfl⟩

/-- C5 counterexample: a cancellation predicate that is true at the very
first checkpoint makes `withRetry` reject immediately without invoking
the operation — but the rejection is `new Error('Operation cancelled by
user')`, a plain `Error`, NOT an instance of the `CancelledError` class
(`isCancelledError` is false on it), contradicting the claim that
`withRetry` rejects with a `CancelledError`. -/
theorem withRetry_cancel_counterexample :
    (withRetry opFail cfgCancelNow).1 = .error (.plain "Operation cancelled by user") ∧
    isCancelledError (.plain "Operation cancelled by user") = false ∧
    (.plain "Operation cancelled by user") ≠
      (JSError.cancelled "Operation cancelled by user") ∧
    (withRetry opFail cfgCancelNow).2.opCalls = [] := by
  refine ⟨rfl, rfl, ?_, rfl⟩
  intro h
  cases h

/-- C5 amended: when the cancellation predicate is false before attempts
`1..k-1` (which all fail retryably) and true at the checkpoint before
attempt `k ≤ maxAttempts`, the operation is not invoked at attempt `k` or
later and `withRetry` rejects immediately — with the plain
`Error('Operation cancelled by user')`, not a `CancelledError`
instance. -/
theorem withRetry_cancel_amended (op : Nat → Except JSError String)
    (cfg : RetryConfig) (err : Nat → JSError) (k : Nat)
    (hk1 : 1 ≤ k) (hkN : k ≤ cfg.maxAttempts)
    (hc : ∀ i, 1 ≤ i → i < k → cfg.cancelledAt i = false)
    (hop : ∀ i, 1 ≤ i → i < k → op i = .error (err i))
    (hr : ∀ i, 1 ≤ i → i < k → cfg.shouldRetry (err i) = true)
    (hck : cfg.cancelledAt k = true) :
    (withRetry op cfg).1 = .error (.plain "Operation cancelled by user") ∧
    isCancelledError (.plain "Operation cancelled by user") = false ∧
    (withRetry op cfg).2.opCalls = seqFrom 1 (k - 1) ∧
    (withRetry op cfg).2.opCalls.length = k - 1 := by
  obtain ⟨f, hf⟩ : ∃ f, cfg.maxAttempts = f + 1 := ⟨cfg.maxAttempts - 1, by omega⟩
  have main := withRetryGo_cancel op cfg err (k - 1) f 1 RetryTrace.empty
    (by omega)
    (fun j hj => by
      have := hc (1 + j) (by omega) (by omega)
      simpa using this)
    (fun j hj => by
      have := hop (1 + j) (by omega) (by omega)
      simpa using this)
    (fun j hj => by
      have := hr (1 + j) (by omega) (by omega)
      simpa using this)
    (by
      have h1k : 1 + (k - 1) = k := by omega
      rw [h1k]
      exact hck)
  rw [withRetry, hf]
  rcases main with ⟨h1, h2⟩
  refine ⟨h1, rfl, ?_, ?_⟩
  · simpa [RetryTrace.empty] using h2
  · rw [h2]; simp [RetryTrace.empty, seqFrom_length]

/-- Closed instance of `withRetry_cancel_amended`: cancellation becoming
true between attempt 1 and attempt 2 stops the run after attempt `[1]`
with the plain cancellation `Error`. -/
theorem withRetry_cancel_amended_witness :
    (withRetry opFail cfgCancelAt2).1 = .error (.plain "Operation cancelled by user") ∧
    isCancelledError (.plain "Operation cancelled by user") = false ∧
    (withRetry opFail cfgCancelAt2).2.opCalls = seqFrom 1 1 ∧
    (withRetry opFail cfgCancelAt2).2.opCalls.length = 1 := by
  exact withRetry_cancel_amended opFail cfgCancelAt2 errBoom 2 (by decide) (by decide)
    (fun i h1 h2 => by
      have : i = 1 := by omega
      subst this
      decide)
    (fun i _ _ => rfl)
    (fun i _ _ => rfl)
    (by decide)

/-- C6: the status-code mapping of `categorizeAPIError`.  An `APIError`
with status 401/403 → API_AUTH not retryable; 429 → API_RATE_LIMIT
retryable; any other truthy status in 400..499 → API_VALIDATION not
retryable; truthy status ≥ 500 → NETWORK retryable; a falsy status (the
source tests `!apiError.status`, so an absent status — and the unreal
status 0 — count as "no status") → NETWORK retryable; every remaining
input — a non-`APIError` value, or a truthy status below 400 other than
the matched codes — → UNKNOWN retryable. -/
theorem categorizeAPIError_status_mapping :
    (∀ (st : Option Nat) (code : Option String) (msg : String) (resp : Option String),
      ((st = some 401 ∨ st = some 403) →
        (categorizeAPIError (.apiError st code msg resp)).categoryOf = some .api_auth ∧
        (categorizeAPIError (.apiError st code msg resp)).canRetryOf = some false) ∧
      (st = some 429 →
        (categorizeAPIError (.apiError st code msg resp)).categoryOf = some .api_rate_limit ∧
        (categorizeAPIError (.apiError st code msg resp)).canRetryOf = some true) ∧
      (∀ s, st = some s → 400 ≤ s → s < 500 → s ≠ 401 → s ≠ 403 → s ≠ 429 →
        (categorizeAPIError (.apiError st code msg resp)).categoryOf = some .api_validation ∧
        (categorizeAPIError (.apiError st code msg resp)).canRetryOf = some false) ∧
      (∀ s, st = some s → 500 ≤ s →
        (categorizeAPIError (.apiError st code msg resp)).categoryOf = some .network ∧
        (categorizeAPIError (.apiError st code msg resp)).canRetryOf = some true) ∧
      (statusTruthy st = false →
        (categorizeAPIError (.apiError st code msg resp)).categoryOf = some .network ∧
        (categorizeAPIError (.apiError st code msg resp)).canRetryOf = some true) ∧
      (∀ s, st = some s → s ≠ 0 → s < 400 → s ≠ 401 → s ≠ 403 → s ≠ 429 →
        (categorizeAPIError (.apiError st code msg resp)).categoryOf = some .unknown ∧
        (categorizeAPIError (.apiError st code msg resp)).canRetryOf = some true)) ∧
    (∀ e : JSError, e.isAPIError = false →
      (categorizeAPIError e).categoryOf = some .unknown ∧
      (categorizeAPIError e).canRetryOf = some true) := by
  constructor
  · intro st code msg resp
    refine ⟨?_, ?_, ?_, ?_, ?_, ?_⟩
    · rintro (rfl | rfl) <;>
        simp [categorizeAPIError, createAuthError, JSError.categoryOf, JSError.canRetryOf]
    · rintro rfl
      simp [categorizeAPIError, createRateLimitError, JSError.categoryOf, JSError.canRetryOf]
    · rintro s rfl h1 h2 h3 h4 h5
      have e1 : ¬ (some s = some 401 ∨ some s = some 403) := by
        rintro (h | h) <;> simp_all
      have e2 : some s ≠ some 429 := by simp_all
      have e3 : statusTruthy (some s) ∧ 400 ≤ (some s).getD 0 ∧ (some s).getD 0 < 500 := by
        refine ⟨?_, by simpa using h1, by simpa using h2⟩
        simp [statusTruthy]; omega
      have g1 : ¬ (s = 401 ∨ s = 403) := by omega
      have g2 : 400 ≤ s ∧ s < 500 := ⟨h1, h2⟩
      simp [categorizeAPIError, e1, e2, e3, g1, g2, JSError.categoryOf, JSError.canRetryOf]
    · rintro s rfl h1
      have e1 : ¬ (some s = some 401 ∨ some s = some 403) := by
        rintro (h | h) <;> simp_all
      have e2 : some s ≠ some 429 := by
        intro h; simp at h; omega
      have e3 : ¬ (statusTruthy (some s) ∧ 400 ≤ (some s).getD 0 ∧ (some s).getD 0 < 500) := by
        rintro ⟨_, _, h⟩
        simp at h
        omega
      have e4 : statusTruthy (some s) ∧ 500 ≤ (some s).getD 0 := by
        refine ⟨?_, by simpa using h1⟩
        simp [statusTruthy]; omega
      have g1 : ¬ (s = 401 ∨ s = 403) := by omega
      have g2 : ¬ (400 ≤ s ∧ s < 500) := by omega
      have g3 : 500 ≤ s := h1
      simp [categorizeAPIError, e1, e2, e3, e4, g1, g2, g3, JSError.categoryOf,
        JSError.canRetryOf]
    · intro hf
      have e1 : ¬ (st = some 401 ∨ st = some 403) := by
        rintro (rfl | rfl) <;> simp [statusTruthy] at hf
      have e2 : st ≠ some 429 := by
        rintro rfl; simp [statusTruthy] at hf
      have e3 : ¬ (statusTruthy st ∧ 400 ≤ st.getD 0 ∧ st.getD 0 < 500) := by
        rintro ⟨h, _, _⟩; simp_all
      have e4 : ¬ (statusTruthy st ∧ 500 ≤ st.getD 0) := by
        rintro ⟨h, _⟩; simp_all
      simp [categorizeAPIError, e1, e2, e3, e4, hf, createNetworkError,
        JSError.categoryOf, JSError.canRetryOf]
    · rintro s rfl h0 h1 h2 h3 h4
      have e1 : ¬ (some s = some 401 ∨ some s = some 403) := by
        rintro (h | h) <;> simp_all
      have e2 : some s ≠ some 429 := by simp_all
      have e3 : ¬ (statusTruthy (some s) ∧ 400 ≤ (some s).getD 0 ∧ (some s).getD 0 < 500) := by
        rintro ⟨_, h, _⟩
        simp at h
        omega
      have e4 : ¬ (statusTruthy (some s) ∧ 500 ≤ (some s).getD 0) := by
        rintro ⟨_, h⟩
        simp at h
        omega
      have e5 : statusTruthy (some s) = true := by
        simp [statusTruthy]; omega
      have g1 : ¬ (s = 401 ∨ s = 403) := by omega
      have g2 : ¬ (400 ≤ s ∧ s < 500) := by omega
      have g3 : ¬ 500 ≤ s := by omega
      simp [categorizeAPIError, e1, e2, e3, e4, e5, g1, g2, g3, JSError.categoryOf,
        JSError.canRetryOf]
  · intro e he
    cases e with
    | apiError st code msg resp => simp [JSError.isAPIError] at he
    | smartSTT c m u r o =>
      simp [categorizeAPIError, JSError.categoryOf, JSError.canRetryOf]
    | cancelled m =>
      simp [categorizeAPIError, JSError.categoryOf, JSError.canRetryOf]
    | plain m =>
      simp [categorizeAPIError, JSError.categoryOf, JSError.canRetryOf]
    | nonError r =>
      simp [categorizeAPIError, JSError.categoryOf, JSError.canRetryOf]

/-- Closed instance of `categorizeAPIError_status_mapping` at statuses
401, 429, 404, 503, an absent status, a truthy sub-400 status, and a
non-`APIError` input. -/
theorem categorizeAPIError_status_mapping_witness :
    ((categorizeAPIError (.apiError (some 401) none "x" none)).categoryOf =
        some .api_auth ∧
      (categorizeAPIError (.apiError (some 401) none "x" none)).canRetryOf = some false) ∧
    ((categorizeAPIError (.apiError (some 429) none "x" none)).categoryOf =
        some .api_rate_limit ∧
      (categorizeAPIError (.apiError (some 429) none "x" none)).canRetryOf = some true) ∧
    ((categorizeAPIError (.apiError (some 404) none "x" none)).categoryOf =
        some .api_validation ∧
      (categorizeAPIError (.apiError (some 404) none "x" none)).canRetryOf = some false) ∧
    ((categorizeAPIError (.apiError (some 503) none "x" none)).categoryOf =
        some .network ∧
      (categorizeAPIError (.apiError (some 503) none "x" none)).canRetryOf = some true) ∧
    ((categorizeAPIError (.apiError none none "x" none)).categoryOf = some .network ∧
      (categorizeAPIError (.apiError none none "x" none)).canRetryOf = some true) ∧
    ((categorizeAPIError (.apiError (some 302) none "x" none)).categoryOf =
        some .unknown ∧
      (categorizeAPIError (.apiError (some 302) none "x" none)).canRetryOf = some true) ∧
    ((categorizeAPIError (.plain "weird")).categoryOf = some .unknown ∧
      (categorizeAPIError (.plain "weird")).canRetryOf = some true) := by
  refine ⟨?_, ?_, ?_, ?_, ?_, ?_, ?_⟩
  · exact (categorizeAPIError_status_mapping.1 (some 401) none "x" none).1 (Or.inl rfl)
  · exact (categorizeAPIError_status_mapping.1 (some 429) none "x" none).2.1 rfl
  · exact (categorizeAPIError_status_mapping.1 (some 404) none "x" none).2.2.1 404 rfl
      (by decide) (by decide) (by decide) (by decide) (by decide)
  · exact (categorizeAPIError_status_mapping.1 (some 503) none "x" none).2.2.2.1 503 rfl
      (by decide)
  · exact (categorizeAPIError_status_mapping.1 none none "x" none).2.2.2.2.1 rfl
  · exact (categorizeAPIError_status_mapping.1 (some 302) none "x" none).2.2.2.2.2 302 rfl
      (by decide) (by decide) (by decide) (by decide) (by decide)
  · exact categorizeAPIError_status_mapping.2 (.plain "weird") rfl

/-- C7 counterexample: on an empty audio buffer `transcribeAudio` does
fail before any network call (the state, hence the effect trace, is
untouched), but the raised value is the plain `new Error('Áudio vazio')`
— not a `SmartSTTError` of category AUDIO (its `category` accessor is
`none`, and it differs from the unused `createEmptyAudioError`
factory value), contradicting the claimed AUDIO-category TypedError. -/
theorem transcribeAudio_empty_counterexample :
    transcribeAudio 0 (.ok "whatever") pipeState0 =
      (.error (.plain "Áudio vazio"), pipeState0) ∧
    (JSError.plain "Áudio vazio").categoryOf = none ∧
    (JSError.plain "Áudio vazio") ≠ createEmptyAudioError := by
  refine ⟨rfl, rfl, ?_⟩
  intro h
  cases h

/-- C7 amended: for every network outcome and starting state, an empty
audio buffer makes `transcribeAudio` fail with the plain
`Error('Áudio vazio')` — not an AUDIO-category `SmartSTTError` — and the
state is returned untouched: zero network calls are made. -/
theorem transcribeAudio_empty_amended (net : Except JSError String) (st : PipeState) :
    transcribeAudio 0 net st = (.error (.plain "Áudio vazio"), st) ∧
    (transcribeAudio 0 net st).2.effects = st.effects := by
  exact ⟨rfl, rfl⟩

/-- C8: `captureSelectedOrClipboardText` always restores the pre-capture
clipboard value: whatever the simulated copy does (succeed, reject, or
time out), the final clipboard equals the starting clipboard, and the
trace ends with the restoring write of exactly that value (performed by
the `finally` block before the result is returned or the copy failure is
propagated). -/
theorem capture_restores_clipboard (copyOutcome : TimedOutcome Unit)
    (copySelection : String) (st : PipeState) :
    ((captureSelectedOrClipboardText copyOutcome copySelection st).2).clipboard =
      st.clipboard ∧
    ((captureSelectedOrClipboardText copyOutcome copySelection st).2).effects =
      st.effects ++ [Effect.clipClear, Effect.copySim, Effect.clipWrite st.clipboard] := by
  unfold captureSelectedOrClipboardText
  cases h : withTimeout copyOutcome 2000 "clipboard-copy" with
  | ok u => simp [h]
  | error e => simp [h]

/-- A dictation-pipeline run without a `shouldCancel` callback whose
transcription and cleaning succeed: the cleaned text is written to the
clipboard, then the paste is attempted; the run returns the cleaned text
when the paste settles in time and `createPasteFailureError()` when it
rejects or times out. -/
theorem handleDictationAudio_run (env : DictEnv) (st : PipeState)
    (raw cleaned : String)
    (hbuf : env.bufferLen ≠ 0)
    (htr : env.transcribeNet = .ok raw)
    (hclean : (cleanTextRun env.cleanNet).1 = .ok cleaned) :
    handleDictationAudio env none st =
      ((match withTimeout env.pasteOutcome 2000 "clipboard-paste" with
        | .error _ => .error (createPasteFailureError none)
        | .ok _ => .ok cleaned),
       { st with
          clipboard := cleaned
          effects := st.effects ++
            [Effect.transcribeNetCall, Effect.cleanCall, Effect.clipWrite cleaned,
             Effect.pasteAttempt] }) := by
  cases hp : cleanTextRun env.cleanNet with
  | mk r tr =>
    rw [hp] at hclean
    simp only at hclean
    subst hclean
    unfold handleDictationAudio
    simp [checkCancel, transcribeAudio, hbuf, htr, hp]
    cases hw : withTimeout env.pasteOutcome 2000 "clipboard-paste" with
    | ok u => simp
    | error e => simp

/-- C1: in every uncancelled dictation run through the `process-audio`
IPC handler in which transcription and cleaning succeed, the cleaned text
is written to the clipboard before the paste is attempted (the trace ends
`clipWrite cleaned, pasteAttempt`), and if the simulated paste rejects or
exceeds its 2-second timeout the caller-facing result is
`{ok:true, text:'', warning:<non-empty>, category:'clipboard'}` while the
clipboard still holds the cleaned text. -/
theorem dictation_paste_reject_partial_success (apiKey : Option String)
    (env : DictEnv) (st0 : MainState) (raw cleaned : String) (e : JSError)
    (hkey : keyTruthy apiKey = true)
    (hbuf : env.bufferLen ≠ 0)
    (htr : env.transcribeNet = .ok raw)
    (hclean : (cleanTextRun env.cleanNet).1 = .ok cleaned)
    (hpaste : withTimeout env.pasteOutcome 2000 "clipboard-paste" = .error e) :
    (processAudio apiKey false false env st0).1 =
      { ok := true, text := some "",
        warning := some "Texto copiado. Cole manualmente com Ctrl+V.",
        category := some "clipboard" } ∧
    "Texto copiado. Cole manualmente com Ctrl+V." ≠ "" ∧
    (processAudio apiKey false false env st0).2.clipboard = cleaned ∧
    (processAudio apiKey false false env st0).2.effects =
      st0.effects ++
        [Effect.transcribeNetCall, Effect.cleanCall, Effect.clipWrite cleaned,
         Effect.pasteAttempt] := by
  have hrun := handleDictationAudio_run env ⟨st0.clipboard, st0.effects, 0⟩ raw cleaned
    hbuf htr hclean
  rw [hpaste] at hrun
  unfold processAudio
  rw [hkey]
  simp only [Bool.true_eq_false, not_true_eq_false, if_false, Bool.false_eq_true, ite_false]
  rw [hrun]
  refine ⟨?_, by decide, rfl, rfl⟩
  simp [handleCaughtError, createPasteFailureError, ErrorCategory.str, orD]

/-- Closed instance of `dictation_paste_reject_partial_success`: the
concrete run `dictEnvPasteFail` (paste never settles) yields the
partial-success shape and leaves the cleaned text (the service answer
`"Olá, tudo bem?"`, trimmed) in the clipboard. -/
theorem dictation_paste_reject_partial_success_witness :
    (processAudio (some "sk-key") false false dictEnvPasteFail mainState0).1 =
      { ok := true, text := some "",
        warning := some "Texto copiado. Cole manualmente com Ctrl+V.",
        category := some "clipboard" } ∧
    "Texto copiado. Cole manualmente com Ctrl+V." ≠ "" ∧
    (processAudio (some "sk-key") false false dictEnvPasteFail mainState0).2.clipboard =
      "Olá, tudo bem?".trim ∧
    (processAudio (some "sk-key") false false dictEnvPasteFail mainState0).2.effects =
      mainState0.effects ++
        [Effect.transcribeNetCall, Effect.cleanCall,
         Effect.clipWrite "Olá, tudo bem?".trim, Effect.pasteAttempt] := by
  exact dictation_paste_reject_partial_success (some "sk-key") dictEnvPasteFail mainState0
    "Olá, é, tudo bem?" "Olá, tudo bem?".trim
    (createTimeoutError "clipboard-paste" 2000)
    (by decide) (by decide) (by rfl) (by rfl) (by rfl)

/-- C2 counterexample: a dictation run through the `process-audio` IPC
handler in which cancellation is requested after transcription completes
(the mutable `cancelInProgress` flag is false at the handler's
pre-pipeline read and true at its post-pipeline read).  Because the
handler passes NO `shouldCancel` callback to `handleDictationAudio`, no
checkpoint ever observes the request: the caller does receive
`{ok:false, error:'Cancelado', cancelled:true}`, but the trace proves
that cleaning, the clipboard write, and the paste all executed after the
request — contradicting the claim that the checkpoint before the next
stage raises `CancelledError` so that no later stage executes. -/
theorem processAudio_cancel_midrun_counterexample :
    (processAudio (some "sk-key") false true dictEnvOk mainState0).1 =
      cancelledResult ∧
    (processAudio (some "sk-key") false true dictEnvOk mainState0).2.effects =
      mainState0.effects ++
        [Effect.transcribeNetCall, Effect.cleanCall,
         Effect.clipWrite "Olá, tudo bem?".trim, Effect.pasteAttempt] := by
  exact ⟨rfl, rfl⟩

/-- C2 amended: the cancellation checkpoints do work at the pipeline
level — when a `shouldCancel` callback is supplied and turns true between
transcription and the next stage, both pipelines raise `CancelledError`
and no later stage executes (no cleaning/editing call, no clipboard
write, no paste).  But the IPC handlers supply no callback: they only
consult their `cancelInProgress` flag before the pipeline starts and
after it finishes, so a cancellation requested between stages lets every
remaining stage (including the clipboard write and the paste) run, and
`cancelled:true` is produced only by the post-completion check that
discards the pipeline's text. -/
theorem pipeline_cancellation_amended :
    (∀ (env : DictEnv) (st : PipeState) (raw : String) (f : Nat → Bool),
      f st.cancelCalls = false → f (st.cancelCalls + 1) = true →
      env.bufferLen ≠ 0 → env.transcribeNet = .ok raw →
      handleDictationAudio env (some f) st =
        (.error (.cancelled "Operation cancelled by user"),
         { st with effects := st.effects ++ [Effect.transcribeNetCall]
                   cancelCalls := st.cancelCalls + 2 })) ∧
    (∀ (env : EditEnv) (b : String) (st : PipeState) (raw : String) (f : Nat → Bool),
      b ≠ "" →
      f st.cancelCalls = false → f (st.cancelCalls + 1) = true →
      env.bufferLen ≠ 0 → env.transcribeNet = .ok raw →
      handleEditAudio env (some b) (some f) st =
        (.error (.cancelled "Operation cancelled by user"),
         { st with effects := st.effects ++ [Effect.transcribeNetCall]
                   cancelCalls := st.cancelCalls + 2 })) ∧
    (∀ (apiKey : Option String) (env : DictEnv) (st0 : MainState)
        (raw cleaned : String) (u : Unit),
      keyTruthy apiKey = true →
      env.bufferLen ≠ 0 → env.transcribeNet = .ok raw →
      (cleanTextRun env.cleanNet).1 = .ok cleaned →
      withTimeout env.pasteOutcome 2000 "clipboard-paste" = .ok u →
      (processAudio apiKey false true env st0).1 = cancelledResult ∧
      (processAudio apiKey false true env st0).2.effects =
        st0.effects ++
          [Effect.transcribeNetCall, Effect.cleanCall, Effect.clipWrite cleaned,
           Effect.pasteAttempt]) := by
  refine ⟨?_, ?_, ?_⟩
  · intro env st raw f hf0 hf1 hbuf htr
    unfold handleDictationAudio
    simp [checkCancel, hf0, transcribeAudio, hbuf, htr, hf1]
  · intro env b st raw f hb hf0 hf1 hbuf htr
    unfold handleEditAudio
    simp [checkCancel, hf0, hb, transcribeAudio, hbuf, htr, hf1]
  · intro apiKey env st0 raw cleaned u hkey hbuf htr hclean hpaste
    have hrun := handleDictationAudio_run env ⟨st0.clipboard, st0.effects, 0⟩ raw cleaned
      hbuf htr hclean
    rw [hpaste] at hrun
    unfold processAudio
    rw [hkey]
    simp only [Bool.true_eq_false, not_true_eq_false, if_false, Bool.false_eq_true,
      ite_false]
    rw [hrun]
    exact ⟨rfl, rfl⟩

/-- Closed instance of `pipeline_cancellation_amended`: with a callback
turning true at checkpoint index 1, both concrete pipelines stop right
after transcription; and the concrete fully-successful IPC run with the
flag set at the post-pipeline read reports `cancelled:true` after all
four stages ran. -/
theorem pipeline_cancellation_amended_witness :
    (handleDictationAudio dictEnvOk (some (cancelFrom 1)) pipeState0 =
      (.error (.cancelled "Operation cancelled by user"),
       { pipeState0 with effects := pipeState0.effects ++ [Effect.transcribeNetCall]
                         cancelCalls := pipeState0.cancelCalls + 2 })) ∧
    (handleEditAudio editEnvOk (some "the base") (some (cancelFrom 1)) pipeState0 =
      (.error (.cancelled "Operation cancelled by user"),
       { pipeState0 with effects := pipeState0.effects ++ [Effect.transcribeNetCall]
                         cancelCalls := pipeState0.cancelCalls + 2 })) ∧
    ((processAudio (some "sk-key") false true dictEnvOk mainState0).1 =
        cancelledResult ∧
      (processAudio (some "sk-key") false true dictEnvOk mainState0).2.effects =
        mainState0.effects ++
          [Effect.transcribeNetCall, Effect.cleanCall,
           Effect.clipWrite "Olá, tudo bem?".trim, Effect.pasteAttempt]) := by
  refine ⟨?_, ?_, ?_⟩
  · exact pipeline_cancellation_amended.1 dictEnvOk pipeState0 "Olá, é, tudo bem?"
      (cancelFrom 1) (by decide) (by decide) (by decide) (by rfl)
  · exact pipeline_cancellation_amended.2.1 editEnvOk "the base" pipeState0
      "make it shorter" (cancelFrom 1) (by decide) (by decide) (by decide) (by decide)
      (by rfl)
  · exact pipeline_cancellation_amended.2.2 (some "sk-key") dictEnvOk mainState0
      "Olá, é, tudo bem?" "Olá, tudo bem?".trim () (by decide) (by decide) (by rfl)
      (by rfl) (by rfl)

/-- C9 counterexample: a `process-audio` request with no stored API key
fails fast (the trace stays empty — no network call) with the thrown
plain `Error`'s message, but the caller-facing result carries NO
`category` field at all — the handler throws `new Error(...)` instead of
`createMissingApiKeyError()`, and the plain error does not match the
`category`/`userMessage` shape test of the catch block — contradicting
the claimed `{ok:false, category:'configuration', ...}` shape. -/
theorem processAudio_missing_key_counterexample :
    (processAudio none false false dictEnvOk mainState0).1 =
      { ok := false, error := some "Configure a chave da OpenAI nas configurações." } ∧
    (processAudio none false false dictEnvOk mainState0).1.category = none ∧
    (processAudio none false false dictEnvOk mainState0).1.category ≠
      some "configuration" ∧
    (processAudio none false false dictEnvOk mainState0).2.effects =
      mainState0.effects := by
  refine ⟨rfl, rfl, ?_, rfl⟩
  intro h
  cases h

/-- C9 amended: for every `process-audio` / `process-edit` request made
while the stored API key is falsy (absent or empty), the handler fails
before the pipeline runs — the effect trace is unchanged, so no network
call is made — but the result is the category-less fallback shape
`{ok:false, error:'Configure a chave da OpenAI nas configurações.'}`,
not a CONFIGURATION-category error: the thrown value is a plain `Error`,
although the `createMissingApiKeyError` factory with exactly that user
message exists. -/
theorem process_missing_key_amended (apiKey : Option String)
    (cancelBefore cancelAfter : Bool) (denv : DictEnv) (eenv : EditEnv)
    (st0 : MainState) (hkey : keyTruthy apiKey = false) :
    ((processAudio apiKey cancelBefore cancelAfter denv st0).1 =
      { ok := false, error := some "Configure a chave da OpenAI nas configurações." } ∧
      (processAudio apiKey cancelBefore cancelAfter denv st0).2.effects =
        st0.effects) ∧
    ((processEdit apiKey cancelBefore cancelAfter eenv st0).1 =
      { ok := false, error := some "Configure a chave da OpenAI nas configurações." } ∧
      (processEdit apiKey cancelBefore cancelAfter eenv st0).2.effects =
        st0.effects) := by
  constructor
  · unfold processAudio
    rw [hkey]
    exact ⟨rfl, rfl⟩
  · unfold processEdit
    rw [hkey]
    exact ⟨rfl, rfl⟩

/-- Closed instance of `process_missing_key_amended` at the empty-string
key (falsy in JS, like an absent key). -/
theorem process_missing_key_amended_witness :
    ((processAudio (some "") false false dictEnvOk mainState0).1 =
      { ok := false, error := some "Configure a chave da OpenAI nas configurações." } ∧
      (processAudio (some "") false false dictEnvOk mainState0).2.effects =
        mainState0.effects) ∧
    ((processEdit (some "") false false editEnvOk mainState0).1 =
      { ok := false, error := some "Configure a chave da OpenAI nas configurações." } ∧
      (processEdit (some "") false false editEnvOk mainState0).2.effects =
        mainState0.effects) := by
  exact process_missing_key_amended (some "") false false dictEnvOk editEnvOk mainState0
    (by decide)

/-- A value that is not an openai `APIError` is categorized as UNKNOWN
and retryable by `categorizeAPIError` (shared helper). -/
theorem categorizeAPIError_nonAPI (e : JSError) (he : e.isAPIError = false) :
    (categorizeAPIError e).categoryOf = some .unknown ∧
    (categorizeAPIError e).canRetryOf = some true := by
  cases e with
  | apiError st code msg resp => simp [JSError.isAPIError] at he
  | smartSTT c m u r o =>
    simp [categorizeAPIError, JSError.categoryOf, JSError.canRetryOf]
  | cancelled m =>
    simp [categorizeAPIError, JSError.categoryOf, JSError.canRetryOf]
  | plain m =>
    simp [categorizeAPIError, JSError.categoryOf, JSError.canRetryOf]
  | nonError r =>
    simp [categorizeAPIError, JSError.categoryOf, JSError.canRetryOf]

/-- C10: every error raised by `cleanText` / `applyInstructionToText` is
`categorizeAPIError` applied to the terminal error of their retry loop,
and whenever that terminal error is not an openai `APIError` — in
particular the TIMEOUT `SmartSTTError` created by `withTimeout` when
every attempt times out, or the retry layer's plain cancellation error —
the raised error has category UNKNOWN with `canRetry = true`: the
original TIMEOUT (or cancellation) identity is not preserved at these
functions' boundaries. -/
theorem textProcessing_categorizes_errors :
    (∀ (net : Nat → TimedOutcome (Option String)) (e : JSError),
      (withRetry (fun attempt => withTimeout (net attempt) 15000 "gpt-clean-text")
          createAPIRetryConfig).1 = .error e →
      (cleanTextRun net).1 = .error (categorizeAPIError e) ∧
      (e.isAPIError = false →
        (categorizeAPIError e).categoryOf = some .unknown ∧
        (categorizeAPIError e).canRetryOf = some true)) ∧
    (∀ (net : Nat → TimedOutcome (Option String)) (e : JSError),
      (withRetry (fun attempt => withTimeout (net attempt) 20000 "gpt-edit-text")
          createAPIRetryConfig).1 = .error e →
      (applyInstructionToTextRun net).1 = .error (categorizeAPIError e) ∧
      (e.isAPIError = false →
        (categorizeAPIError e).categoryOf = some .unknown ∧
        (categorizeAPIError e).canRetryOf = some true)) ∧
    (∀ (net : Nat → TimedOutcome (Option String)) (e : JSError),
      (cleanTextRun net).1 = .error e →
      ∃ e0, e = categorizeAPIError e0 ∧ e.categoryOf ≠ none) ∧
    (∀ (net : Nat → TimedOutcome (Option String)) (e : JSError),
      (applyInstructionToTextRun net).1 = .error e →
      ∃ e0, e = categorizeAPIError e0 ∧ e.categoryOf ≠ none) := by
  have hsmart : ∀ e0 : JSError, (categorizeAPIError e0).categoryOf ≠ none := by
    intro e0
    cases e0 with
    | apiError st code msg resp =>
      by_cases h1 : st = some 401 ∨ st = some 403
      · simp [categorizeAPIError, h1, createAuthError, JSError.categoryOf]
      · by_cases h2 : st = some 429
        · simp [categorizeAPIError, h1, h2, createRateLimitError, JSError.categoryOf]
        · by_cases h3 : statusTruthy st = true ∧ 400 ≤ st.getD 0 ∧ st.getD 0 < 500
          · simp [categorizeAPIError, h1, h2, h3, JSError.categoryOf]
          · by_cases h4 : statusTruthy st = true ∧ 500 ≤ st.getD 0
            · have g1 : ¬ (400 ≤ st.getD 0 ∧ st.getD 0 < 500) :=
                fun hh => h3 ⟨h4.1, hh.1, hh.2⟩
              simp [categorizeAPIError, h1, h2, h3, h4, g1, JSError.categoryOf]
            · by_cases h5 : statusTruthy st = false
              · simp [categorizeAPIError, h1, h2, h3, h4, h5, createNetworkError,
                  JSError.categoryOf]
              · have ht : statusTruthy st = true := by
                  revert h5; cases statusTruthy st <;> simp
                have g1 : ¬ (400 ≤ st.getD 0 ∧ st.getD 0 < 500) :=
                  fun hh => h3 ⟨ht, hh⟩
                have g2 : ¬ 500 ≤ st.getD 0 := fun hh => h4 ⟨ht, hh⟩
                simp [categorizeAPIError, h1, h2, h3, h4, h5, g1, g2,
                  JSError.categoryOf]
    | smartSTT c m u r o => simp [categorizeAPIError, JSError.categoryOf]
    | cancelled m => simp [categorizeAPIError, JSError.categoryOf]
    | plain m => simp [categorizeAPIError, JSError.categoryOf]
    | nonError r => simp [categorizeAPIError, JSError.categoryOf]
  refine ⟨?_, ?_, ?_, ?_⟩
  · intro net e he
    cases hp : withRetry (fun attempt => withTimeout (net attempt) 15000 "gpt-clean-text")
        createAPIRetryConfig with
    | mk r tr =>
      rw [hp] at he
      simp only at he
      subst he
      refine ⟨?_, fun hna => categorizeAPIError_nonAPI e hna⟩
      unfold cleanTextRun
      rw [hp]
  · intro net e he
    cases hp : withRetry (fun attempt => withTimeout (net attempt) 20000 "gpt-edit-text")
        createAPIRetryConfig with
    | mk r tr =>
      rw [hp] at he
      simp only at he
      subst he
      refine ⟨?_, fun hna => categorizeAPIError_nonAPI e hna⟩
      unfold applyInstructionToTextRun
      rw [hp]
  · intro net e he
    cases hp : withRetry (fun attempt => withTimeout (net attempt) 15000 "gpt-clean-text")
        createAPIRetryConfig with
    | mk r tr =>
      unfold cleanTextRun at he
      rw [hp] at he
      cases r with
      | ok v => simp at he
      | error e0 =>
        simp only at he
        have : e = categorizeAPIError e0 := by
          injection he with h
          exact h.symm
        exact ⟨e0, this, this ▸ hsmart e0⟩
  · intro net e he
    cases hp : withRetry (fun attempt => withTimeout (net attempt) 20000 "gpt-edit-text")
        createAPIRetryConfig with
    | mk r tr =>
      unfold applyInstructionToTextRun at he
      rw [hp] at he
      cases r with
      | ok v => simp at he
      | error e0 =>
        simp only at he
        have : e = categorizeAPIError e0 := by
          injection he with h
          exact h.symm
        exact ⟨e0, this, this ▸ hsmart e0⟩

/-- Closed instance of `textProcessing_categorizes_errors`: a cleaning
service that never answers exhausts the three attempts with the 15s
TIMEOUT error, and the error `cleanText` raises is its UNKNOWN,
retryable re-categorization — the TIMEOUT identity is lost; same for the
editor with the 20s timeout. -/
theorem textProcessing_categorizes_errors_witness :
    ((cleanTextRun netPending).1 =
      .error (categorizeAPIError (createTimeoutError "gpt-clean-text" 15000)) ∧
      ((createTimeoutError "gpt-clean-text" 15000).isAPIError = false →
        (categorizeAPIError (createTimeoutError "gpt-clean-text" 15000)).categoryOf =
          some .unknown ∧
        (categorizeAPIError (createTimeoutError "gpt-clean-text" 15000)).canRetryOf =
          some true)) ∧
    ((applyInstructionToTextRun netPending).1 =
      .error (categorizeAPIError (createTimeoutError "gpt-edit-text" 20000)) ∧
      ((createTimeoutError "gpt-edit-text" 20000).isAPIError = false →
        (categorizeAPIError (createTimeoutError "gpt-edit-text" 20000)).categoryOf =
          some .unknown ∧
        (categorizeAPIError (createTimeoutError "gpt-edit-text" 20000)).canRetryOf =
          some true)) := by
  constructor
  · exact textProcessing_categorizes_errors.1 netPending
      (createTimeoutError "gpt-clean-text" 15000) (by rfl)
  · exact textProcessing_categorizes_errors.2.1 netPending
      (createTimeoutError "gpt-edit-text" 20000) (by rfl)
